import Mathlib

/-!
# Active-node heartbeat ledger

A shallow embedding of `pkg/services/sqlstore/active_node.go`: the heartbeat
ledger (`active_node` table), the partition assignment done by
`insertHeartbeatSQL`, the missing-run recorder and the interval watermark.

The table is a list of rows in insertion order.  Everything the store decides
on its own during one call (whether a statement fails, what the clock query
returns) is an explicit input, `Env`.  Every operation returns how the call
ended, the command as the caller sees it afterwards, the table afterwards and
the store operations it issued, in order.
-/

namespace sqlstore

/-! ## Data model -/

/-- Modelled from the spec: the run-type and status constants of `pkg/models`
(`m.CLN_ALERT_RUN_TYPE_*`, `m.CLN_ALERT_STATUS_*`), which are not under `src/`.
Their spelling is not fixed by the spec, so they are a parameter of the
embedding. -/
structure Consts where
  CLN_ALERT_RUN_TYPE_NORMAL : String
  CLN_ALERT_RUN_TYPE_MISSING : String
  CLN_ALERT_STATUS_READY : String
  CLN_ALERT_STATUS_PROCESSING : String
  CLN_ALERT_STATUS_SCHEDULING : String
deriving DecidableEq, Repr

/-- Modelled from the spec: one concrete choice of the string tags, the
spelling spec section 6 gives (`"normal"`, `"missing"`, `"ready"`,
`"processing"`, `"scheduling"`). Used only to evaluate the code on concrete
inputs. -/
def specConsts : Consts :=
  { CLN_ALERT_RUN_TYPE_NORMAL := "normal"
    CLN_ALERT_RUN_TYPE_MISSING := "missing"
    CLN_ALERT_STATUS_READY := "ready"
    CLN_ALERT_STATUS_PROCESSING := "processing"
    CLN_ALERT_STATUS_SCHEDULING := "scheduling" }

/-- Modelled from the spec: `m.ActiveNode` (declared in `pkg/models`, not under
`src/`), the ledger row `(nodeId, heartbeatBucket, partitionNo, alertRunType,
alertStatus)`. The surrogate key `Id` is left out: no operation of this file
reads it except a debug log line. -/
structure ActiveNode where
  NodeId : String
  Heartbeat : Int
  PartitionNo : Int
  AlertRunType : String
  AlertStatus : String
deriving DecidableEq, Repr

/-- Zero value of the Go struct. -/
instance : Inhabited ActiveNode := ⟨⟨"", 0, 0, "", ""⟩⟩

/-- Contents of the `active_node` table, oldest row first. -/
abbrev Ledger := List ActiveNode

/-- Modelled from the spec: `m.GetActiveNodeByIdHeartbeatQuery`. -/
structure GetActiveNodeByIdHeartbeatQuery where
  NodeId : String
  Heartbeat : Int
  Result : Option ActiveNode
deriving DecidableEq, Repr

/-- Modelled from the spec: `m.SaveActiveNodeCommand`; `Node` is a pointer and
may be nil. -/
structure SaveActiveNodeCommand where
  Node : Option ActiveNode
  FetchResult : Bool
  Result : Option ActiveNode
deriving DecidableEq, Repr

/-- Modelled from the spec: `m.SaveNodeProcessingMissingAlertCommand`. -/
structure SaveNodeProcessingMissingAlertCommand where
  Node : Option ActiveNode
  Result : Option ActiveNode
deriving DecidableEq, Repr

/-- Modelled from the spec: `m.GetLastDBTimeIntervalQuery`; `Result` is an
`int64`. -/
structure GetLastDBTimeIntervalQuery where
  Result : Int
deriving DecidableEq, Repr

/-! ## Errors, outcomes and the store's behaviour -/

/-- The two causes a `*strconv.NumError` carries. -/
inductive NumErrKind where
  | ErrSyntax
  | ErrRange
deriving DecidableEq, Repr

/-- Go `error` values that occur in this file. -/
inductive GoError where
  | New (msg : String)
  | Store (msg : String)
  | NumError (Func : String) (Num : String) (Err : NumErrKind)
deriving DecidableEq, Repr

/-- How a Go call ends: it returns its `error` result (nil or not), or it
stops with a run-time error (index out of range, nil dereference). -/
inductive Ret where
  | returned (err : Option GoError)
  | crashed
deriving DecidableEq, Repr

/-- Round trips to the store, in the order a call issues them. -/
inductive StoreOp where
  | Begin
  | Query
  | Exec
  | Insert
  | Commit
  | Rollback
  | Get
deriving DecidableEq, Repr

/-- What the store does during one call: an error for each statement that can
fail, and the rows (`[]map[string][]byte`) the clock query
`select <CurrentTimeToRoundMinSql> as ts` returns. -/
structure Env where
  beginErr : Option GoError
  clock : Except GoError (List (List (String × String)))
  execErr : Option GoError
  insertErr : Option GoError
  commitErr : Option GoError
  getErr : Option GoError

/-- A store on which no statement fails and whose clock query returns the
single row `ts = ts`. -/
def Env.healthy (ts : String) : Env :=
  { beginErr := none
    clock := .ok [[("ts", ts)]]
    execErr := none
    insertErr := none
    commitErr := none
    getErr := none }

/-- Result of running an operation: how it ended, the command (or the
variables a closure captured) afterwards, the table afterwards and the store
operations issued. -/
structure Run (α : Type) where
  ret : Ret
  cmd : α
  ledger : Ledger
  ops : List StoreOp
deriving DecidableEq, Repr

/-- Go map index `row[key]` on a `map[string][]byte`, read as a string: the
empty string when the key is absent. -/
def mapIndex (row : List (String × String)) (key : String) : String :=
  (row.lookup key).getD ""

/-- Two's-complement wrap of an integer to `int64`. -/
def wrapInt64 (x : Int) : Int :=
  (x + 2 ^ 63) % 2 ^ 64 - 2 ^ 63

/-! ## strconv.ParseInt (Go standard library), base 10, 64 bits -/

namespace strconv

/-- Digit loop of `strconv.ParseUint(s, 10, 64)`: the value so far and the
rest of the input give `(n, err)`. A byte that is not a decimal digit is a
syntax error (`n = 0`); overflow of `uint64` is a range error
(`n = 1<<64 - 1`). The first error met, left to right, wins. -/
def ParseUintLoop : List Char → Nat → Nat × Option NumErrKind
  | [], n => (n, none)
  | d :: ds, n =>
    if '0' ≤ d ∧ d ≤ '9' then
      let v := d.toNat - '0'.toNat
      -- cutoff = maxUint64/10 + 1
      if n ≥ (2 ^ 64 - 1) / 10 + 1 then
        (2 ^ 64 - 1, some .ErrRange)
      else
        let n1 := n * 10 + v
        -- n1 < n (wrapped) || n1 > maxVal
        if n1 > 2 ^ 64 - 1 then
          (2 ^ 64 - 1, some .ErrRange)
        else
          ParseUintLoop ds n1
    else
      (0, some .ErrSyntax)

/-- Go `strconv.ParseUint(s, 10, 64)` on the bytes of `s`. -/
def ParseUint (s : List Char) : Nat × Option NumErrKind :=
  match s with
  | [] => (0, some .ErrSyntax)
  | _ => ParseUintLoop s 0

/-- Go `strconv.ParseInt(s, 10, 64)`: the value and the error, as Go returns
them (`0` with a syntax error, the nearest bound with a range error). -/
def ParseInt (s : String) : Int × Option GoError :=
  match s.data with
  | [] => (0, some (.NumError "ParseInt" s .ErrSyntax))
  | c :: rest =>
    let neg := decide (c = '-')
    let body := if c = '+' then rest else if c = '-' then rest else c :: rest
    match ParseUint body with
    | (_, some .ErrSyntax) => (0, some (.NumError "ParseInt" s .ErrSyntax))
    | (un, _) =>
      if !neg ∧ un ≥ 2 ^ 63 then
        (2 ^ 63 - 1, some (.NumError "ParseInt" s .ErrRange))
      else if neg ∧ un > 2 ^ 63 then
        (-(2 ^ 63), some (.NumError "ParseInt" s .ErrRange))
      else
        (if neg then -(un : Int) else (un : Int), none)

end strconv

/-! ## Enum validators -/

/-- Go `validAlertRunType`: a switch whose two cases fall out to `return true`. -/
def validAlertRunType (k : Consts) (status : String) : Bool :=
  if status = k.CLN_ALERT_RUN_TYPE_MISSING then true
  else if status = k.CLN_ALERT_RUN_TYPE_NORMAL then true
  else false

/-- Go `validAlertStatus`. -/
def validAlertStatus (k : Consts) (status : String) : Bool :=
  if status = k.CLN_ALERT_STATUS_READY then true
  else if status = k.CLN_ALERT_STATUS_PROCESSING then true
  else if status = k.CLN_ALERT_STATUS_SCHEDULING then true
  else false

/-! ## Store primitives -/

/-- Modelled from the spec: `inTransaction` (defined elsewhere in
`pkg/services/sqlstore`, not under `src/`). Spec 4.2 and 7: the callback runs
in one transaction; on success the transaction commits; on any failure it is
aborted, the error is surfaced and nothing is written. Variables the closure
captured keep what the callback assigned. -/
def inTransaction {α : Type} (env : Env) (s : Ledger) (init : α)
    (callback : Ledger → Run α) : Run α :=
  match env.beginErr with
  | some e => ⟨.returned (some e), init, s, [.Begin]⟩
  | none =>
    let r := callback s
    match r.ret with
    | .crashed => ⟨.crashed, r.cmd, s, .Begin :: r.ops⟩
    | .returned (some e) => ⟨.returned (some e), r.cmd, s, .Begin :: (r.ops ++ [.Rollback])⟩
    | .returned none =>
      match env.commitErr with
      | some e => ⟨.returned (some e), r.cmd, s, .Begin :: (r.ops ++ [.Commit])⟩
      | none => ⟨.returned none, r.cmd, r.ledger, .Begin :: (r.ops ++ [.Commit])⟩

/-- The xorm call `x.Where("heartbeat=?", hb).And("node_id=?", id).Get(&retNode)`:
`(has, err, retNode)`. Without a store failure it yields the first row, in
table order, matching both columns; `retNode` keeps its zero value otherwise.
The statement carries no ORDER BY: which of several matching rows comes back
is the store's choice, taken here to be insertion order. -/
def xormGet (env : Env) (s : Ledger) (heartbeat : Int) (nodeId : String) :
    Bool × Option GoError × ActiveNode :=
  match env.getErr with
  | some e => (false, some e, default)
  | none =>
    match s.find? (fun r => decide (r.Heartbeat = heartbeat) && decide (r.NodeId = nodeId)) with
    | some r => (true, none, r)
    | none => (false, none, default)

/-- The scalar subquery of `insertHeartbeatSQL`:
`select count(partition_no) from active_node where heartbeat = ?`. -/
def countHeartbeat (s : Ledger) (ts : Int) : Nat :=
  (s.filter (fun r => decide (r.Heartbeat = ts))).length

/-- The statement `insertHeartbeatSQL` with its five arguments: one new row
whose `partition_no` is the subquery's count over the table as it is. -/
def insertHeartbeatSQL (s : Ledger) (nodeId : String) (ts1 ts2 : Int)
    (alertRunType alertStatus : String) : Ledger :=
  s ++ [⟨nodeId, ts1, (countHeartbeat s ts2 : Int), alertRunType, alertStatus⟩]

/-! ## Operations -/

/-- Go `GetActiveNodeByIdHeartbeat`. -/
def GetActiveNodeByIdHeartbeat (env : Env) (s : Ledger)
    (query : GetActiveNodeByIdHeartbeatQuery) : Run GetActiveNodeByIdHeartbeatQuery :=
  match xormGet env s query.Heartbeat query.NodeId with
  | (has, err, retNode) =>
    if err ≠ none ∨ !has then
      let errmsg := "Heartbeat record not found: nodeId=" ++ query.NodeId ++
        ", heartbeat=" ++ toString query.Heartbeat
      match err with
      | none => ⟨.returned (some (.New errmsg)), query, s, [.Get]⟩
      | some e => ⟨.returned (some e), query, s, [.Get]⟩
    else
      ⟨.returned none, { query with Result := some retNode }, s, [.Get]⟩

/-- Go `InsertActiveNodeHeartbeat`. -/
def InsertActiveNodeHeartbeat (k : Consts) (env : Env) (s : Ledger)
    (cmd : SaveActiveNodeCommand) : Run SaveActiveNodeCommand :=
  match cmd.Node with
  | none => ⟨.returned (some (.New "No ActiveNode found to save")), cmd, s, []⟩
  | some node =>
    if !validAlertRunType k node.AlertRunType then
      ⟨.returned (some (.New ("Invalid alert run type " ++ node.AlertRunType))), cmd, s, []⟩
    else if !validAlertStatus k node.AlertStatus then
      ⟨.returned (some (.New ("Invalid alert status " ++ node.AlertStatus))), cmd, s, []⟩
    else
      let tx := inTransaction env s (-1 : Int) (fun sess =>
        match env.clock with
        | .error e => ⟨.returned (some e), -1, sess, [.Query]⟩
        | .ok [] => ⟨.crashed, -1, sess, [.Query]⟩
        | .ok (row :: _) =>
          match strconv.ParseInt (mapIndex row "ts") with
          | (ts, some e) => ⟨.returned (some e), ts, sess, [.Query]⟩
          | (ts, none) =>
            match env.execErr with
            | some e => ⟨.returned (some e), ts, sess, [.Query, .Exec]⟩
            | none =>
              ⟨.returned none, ts,
                insertHeartbeatSQL sess node.NodeId ts ts node.AlertRunType node.AlertStatus,
                [.Query, .Exec]⟩)
      match tx.ret with
      | .crashed => ⟨.crashed, cmd, tx.ledger, tx.ops⟩
      | .returned (some e) => ⟨.returned (some e), cmd, tx.ledger, tx.ops⟩
      | .returned none =>
        if cmd.FetchResult then
          let getcmd := GetActiveNodeByIdHeartbeat env tx.ledger ⟨node.NodeId, tx.cmd, none⟩
          match getcmd.ret with
          | .returned none =>
            ⟨.returned none, { cmd with Result := getcmd.cmd.Result }, tx.ledger,
              tx.ops ++ getcmd.ops⟩
          | r => ⟨r, cmd, tx.ledger, tx.ops ++ getcmd.ops⟩
        else
          ⟨.returned none, cmd, tx.ledger, tx.ops⟩

/-- Go `InsertNodeProcessingMissingAlert`. -/
def InsertNodeProcessingMissingAlert (k : Consts) (env : Env) (s : Ledger)
    (cmd : SaveNodeProcessingMissingAlertCommand) : Run SaveNodeProcessingMissingAlertCommand :=
  inTransaction env s cmd (fun sess =>
    match env.clock with
    | .error e => ⟨.returned (some e), cmd, sess, [.Query]⟩
    | .ok [] => ⟨.crashed, cmd, sess, [.Query]⟩
    | .ok (row :: _) =>
      match strconv.ParseInt (mapIndex row "ts") with
      | (_, some e) => ⟨.returned (some e), cmd, sess, [.Query]⟩
      | (ts, none) =>
        match cmd.Node with
        | none => ⟨.crashed, cmd, sess, [.Query]⟩
        | some node =>
          let nodeProcessingMissingAlert : ActiveNode :=
            { NodeId := node.NodeId
              PartitionNo := 0
              AlertRunType := k.CLN_ALERT_RUN_TYPE_MISSING
              Heartbeat := ts
              AlertStatus := "FIXME" }
          match env.insertErr with
          | some e => ⟨.returned (some e), cmd, sess, [.Query, .Insert]⟩
          | none =>
            ⟨.returned none, { cmd with Result := some nodeProcessingMissingAlert },
              sess ++ [nodeProcessingMissingAlert], [.Query, .Insert]⟩)

/-- Go `GetLastDBTimeInterval`; `cmd` is a pointer and may be nil. The
subtraction is `int64` arithmetic. -/
def GetLastDBTimeInterval (env : Env) (s : Ledger)
    (cmd : Option GetLastDBTimeIntervalQuery) : Run (Option GetLastDBTimeIntervalQuery) :=
  match cmd with
  | none =>
    ⟨.returned (some (.New "Invalid command received to GetLastDBTimeInterval")), cmd, s, []⟩
  | some _ =>
    match env.clock with
    | .error e => ⟨.returned (some e), cmd, s, [.Query]⟩
    | .ok [] => ⟨.crashed, cmd, s, [.Query]⟩
    | .ok (row :: _) =>
      match strconv.ParseInt (mapIndex row "ts") with
      | (_, some e) => ⟨.returned (some e), cmd, s, [.Query]⟩
      | (ts, none) => ⟨.returned none, some ⟨wrapInt64 (ts - 60)⟩, s, [.Query]⟩

/-! ## Reading the model -/

/-- The bucket the clock source reports during a call: the `ts` column of the
first row of the clock query, when the query succeeds with at least one row and
the column parses as an `int64`. -/
def Env.bucket (env : Env) : Option Int :=
  match env.clock with
  | .error _ => none
  | .ok [] => none
  | .ok (row :: _) =>
    match strconv.ParseInt (mapIndex row "ts") with
    | (ts, none) => some ts
    | (_, some _) => none

/-- Calls of `InsertActiveNodeHeartbeat` executed one after another: each call
runs on the table the previous call left. -/
def runHeartbeats (k : Consts) : Ledger → List (Env × SaveActiveNodeCommand) →
    List (Run SaveActiveNodeCommand)
  | _, [] => []
  | s, c :: rest =>
    (InsertActiveNodeHeartbeat k c.1 s c.2) ::
      runHeartbeats k (InsertActiveNodeHeartbeat k c.1 s c.2).ledger rest

/-- The table after a sequence of `InsertActiveNodeHeartbeat` calls. -/
def ledgerAfterHeartbeats (k : Consts) (s : Ledger)
    (calls : List (Env × SaveActiveNodeCommand)) : Ledger :=
  calls.foldl (fun t c => (InsertActiveNodeHeartbeat k c.1 t c.2).ledger) s

/-! ## Auxiliary lemmas -/

theorem Env.bucket_eq_some {env : Env} {b : Int} (h : env.bucket = some b) :
    ∃ row rest, env.clock = .ok (row :: rest) ∧
      strconv.ParseInt (mapIndex row "ts") = (b, none) := by
  unfold Env.bucket at h
  split at h
  · cases h
  · cases h
  · rename_i row rest hc
    split at h
    · rename_i ts hp
      cases h
      exact ⟨row, rest, hc, hp⟩
    · cases h

theorem strconv.ParseInt_range {s : String} {b : Int}
    (h : strconv.ParseInt s = (b, none)) : -(2 ^ 63) ≤ b ∧ b < 2 ^ 63 := by
  unfold strconv.ParseInt at h
  split at h
  · simp at h
  · rename_i c rest _
    simp only at h
    split at h
    · simp at h
    · rename_i un e _ _
      split at h
      · simp at h
      · split at h
        · simp at h
        · rename_i h1 h2
          have hb : b = if decide (c = '-') = true then -(un : Int) else (un : Int) := by
            have := congrArg Prod.fst h
            simpa using this.symm
          by_cases hneg : c = '-'
          · simp [hneg] at h1 h2 hb
            subst hb
            omega
          · simp [hneg] at h1 h2 hb
            subst hb
            omega

/-- The lookup issues exactly one store operation and never changes the table. -/
theorem GetActiveNodeByIdHeartbeat_ledger (env : Env) (s : Ledger)
    (query : GetActiveNodeByIdHeartbeatQuery) :
    (GetActiveNodeByIdHeartbeat env s query).ledger = s := by
  unfold GetActiveNodeByIdHeartbeat
  split
  split
  · split <;> rfl
  · rfl

/-- A lookup that returns nil found a row of the table with the queried key,
and that row is the first one with this key. -/
theorem GetActiveNodeByIdHeartbeat_nil {env : Env} {s : Ledger}
    {query : GetActiveNodeByIdHeartbeatQuery}
    (h : (GetActiveNodeByIdHeartbeat env s query).ret = .returned none) :
    ∃ row, s.find? (fun r => decide (r.Heartbeat = query.Heartbeat) &&
        decide (r.NodeId = query.NodeId)) = some row ∧
      (GetActiveNodeByIdHeartbeat env s query).cmd = { query with Result := some row } := by
  unfold GetActiveNodeByIdHeartbeat xormGet at *
  cases hg : env.getErr with
  | some e => simp [hg] at h
  | none =>
    cases hf : s.find? (fun r => decide (r.Heartbeat = query.Heartbeat) &&
        decide (r.NodeId = query.NodeId)) with
    | none => simp [hg, hf] at h
    | some row => exact ⟨row, rfl, by simp [hg, hf]⟩

/-- Without a store failure the lookup returns nil exactly when some row has
the queried key. -/
theorem GetActiveNodeByIdHeartbeat_found {env : Env} {s : Ledger}
    {query : GetActiveNodeByIdHeartbeatQuery} {row : ActiveNode}
    (hg : env.getErr = none)
    (hf : s.find? (fun r => decide (r.Heartbeat = query.Heartbeat) &&
        decide (r.NodeId = query.NodeId)) = some row) :
    GetActiveNodeByIdHeartbeat env s query =
      ⟨.returned none, { query with Result := some row }, s, [.Get]⟩ := by
  unfold GetActiveNodeByIdHeartbeat xormGet
  simp [hg, hf]

/-- The transaction of `InsertActiveNodeHeartbeat` on a store that does not
fail: the table gains the row built by `insertHeartbeatSQL`. -/
theorem InsertActiveNodeHeartbeat_ledger {k : Consts} {env : Env} {s : Ledger}
    {cmd : SaveActiveNodeCommand} {node : ActiveNode} {b : Int}
    (hnode : cmd.Node = some node)
    (hrt : validAlertRunType k node.AlertRunType = true)
    (hst : validAlertStatus k node.AlertStatus = true)
    (hb : env.bucket = some b)
    (hbegin : env.beginErr = none) (hexec : env.execErr = none)
    (hcommit : env.commitErr = none) :
    (InsertActiveNodeHeartbeat k env s cmd).ledger =
      insertHeartbeatSQL s node.NodeId b b node.AlertRunType node.AlertStatus := by
  obtain ⟨row, rest, hc, hp⟩ := Env.bucket_eq_some hb
  unfold InsertActiveNodeHeartbeat
  simp only [hnode, hrt, hst, inTransaction, hbegin, hc, hp, hexec, hcommit]
  simp only [Bool.not_true, Bool.false_eq_true, if_false]
  by_cases hfr : cmd.FetchResult = true
  · simp only [hfr, if_true]
    split <;> rfl
  · simp [hfr]

/-- A call of `InsertActiveNodeHeartbeat` that returned nil had a node with
valid enums, and left the table with exactly one more row, the one built by
`insertHeartbeatSQL` for the bucket the clock reported. -/
theorem InsertActiveNodeHeartbeat_nil {k : Consts} {env : Env} {s : Ledger}
    {cmd : SaveActiveNodeCommand}
    (h : (InsertActiveNodeHeartbeat k env s cmd).ret = .returned none) :
    ∃ node b, cmd.Node = some node ∧ env.bucket = some b ∧
      validAlertRunType k node.AlertRunType = true ∧
      validAlertStatus k node.AlertStatus = true ∧
      (InsertActiveNodeHeartbeat k env s cmd).ledger =
        insertHeartbeatSQL s node.NodeId b b node.AlertRunType node.AlertStatus := by
  cases hnode : cmd.Node with
  | none => simp [InsertActiveNodeHeartbeat, hnode] at h
  | some node =>
    cases hrt : validAlertRunType k node.AlertRunType with
    | false => simp [InsertActiveNodeHeartbeat, hnode, hrt] at h
    | true =>
      cases hst : validAlertStatus k node.AlertStatus with
      | false => simp [InsertActiveNodeHeartbeat, hnode, hrt, hst] at h
      | true =>
        cases hbegin : env.beginErr with
        | some e => simp [InsertActiveNodeHeartbeat, hnode, hrt, hst, inTransaction, hbegin] at h
        | none =>
          cases hc : env.clock with
          | error e =>
            simp [InsertActiveNodeHeartbeat, hnode, hrt, hst, inTransaction, hbegin, hc] at h
          | ok rows =>
            cases rows with
            | nil =>
              simp [InsertActiveNodeHeartbeat, hnode, hrt, hst, inTransaction, hbegin, hc] at h
            | cons row rest =>
              rcases hp : strconv.ParseInt (mapIndex row "ts") with ⟨ts, perr⟩
              cases perr with
              | some e =>
                simp [InsertActiveNodeHeartbeat, hnode, hrt, hst, inTransaction, hbegin, hc,
                  hp] at h
              | none =>
                have hb : env.bucket = some ts := by simp [Env.bucket, hc, hp]
                cases hexec : env.execErr with
                | some e =>
                  simp [InsertActiveNodeHeartbeat, hnode, hrt, hst, inTransaction, hbegin, hc,
                    hp, hexec] at h
                | none =>
                  cases hcommit : env.commitErr with
                  | some e =>
                    simp [InsertActiveNodeHeartbeat, hnode, hrt, hst, inTransaction, hbegin, hc,
                      hp, hexec, hcommit] at h
                  | none =>
                    exact ⟨node, ts, rfl, hb, hrt, hst,
                      InsertActiveNodeHeartbeat_ledger hnode hrt hst hb hbegin hexec hcommit⟩

/-- On a store that does not fail, a command with a node and valid enums makes
`InsertActiveNodeHeartbeat` return nil when no result is to be fetched. -/
theorem InsertActiveNodeHeartbeat_run {k : Consts} {env : Env} {s : Ledger}
    {cmd : SaveActiveNodeCommand} {node : ActiveNode} {b : Int}
    (hnode : cmd.Node = some node)
    (hrt : validAlertRunType k node.AlertRunType = true)
    (hst : validAlertStatus k node.AlertStatus = true)
    (hb : env.bucket = some b)
    (hbegin : env.beginErr = none) (hexec : env.execErr = none)
    (hcommit : env.commitErr = none) (hfr : cmd.FetchResult = false) :
    InsertActiveNodeHeartbeat k env s cmd =
      ⟨.returned none, cmd,
        insertHeartbeatSQL s node.NodeId b b node.AlertRunType node.AlertStatus,
        [.Begin, .Query, .Exec, .Commit]⟩ := by
  obtain ⟨row, rest, hc, hp⟩ := Env.bucket_eq_some hb
  unfold InsertActiveNodeHeartbeat
  simp [hnode, hrt, hst, inTransaction, hbegin, hc, hp, hexec, hcommit, hfr]

/-- The same with `FetchResult` set: the call ends as the lookup of
`(NodeId, b)` on the new table ends. -/
theorem InsertActiveNodeHeartbeat_fetch {k : Consts} {env : Env} {s : Ledger}
    {cmd : SaveActiveNodeCommand} {node : ActiveNode} {b : Int}
    (hnode : cmd.Node = some node)
    (hrt : validAlertRunType k node.AlertRunType = true)
    (hst : validAlertStatus k node.AlertStatus = true)
    (hb : env.bucket = some b)
    (hbegin : env.beginErr = none) (hexec : env.execErr = none)
    (hcommit : env.commitErr = none) (hfr : cmd.FetchResult = true)
    {row : ActiveNode} (hg : env.getErr = none)
    (hf : (insertHeartbeatSQL s node.NodeId b b node.AlertRunType node.AlertStatus).find?
      (fun r => decide (r.Heartbeat = b) && decide (r.NodeId = node.NodeId)) = some row) :
    InsertActiveNodeHeartbeat k env s cmd =
      ⟨.returned none, { cmd with Result := some row },
        insertHeartbeatSQL s node.NodeId b b node.AlertRunType node.AlertStatus,
        [.Begin, .Query, .Exec, .Commit, .Get]⟩ := by
  obtain ⟨crow, rest, hc, hp⟩ := Env.bucket_eq_some hb
  have hget := @GetActiveNodeByIdHeartbeat_found env _ ⟨node.NodeId, b, none⟩ _ hg hf
  unfold InsertActiveNodeHeartbeat
  simp [hnode, hrt, hst, inTransaction, hbegin, hc, hp, hexec, hcommit, hfr, hget]

theorem validAlertRunType_of_mem {k : Consts} {v : String}
    (h : v ∈ [k.CLN_ALERT_RUN_TYPE_NORMAL, k.CLN_ALERT_RUN_TYPE_MISSING]) :
    validAlertRunType k v = true := by
  simp only [List.mem_cons, List.mem_singleton, List.not_mem_nil, or_false] at h
  unfold validAlertRunType
  rcases h with h | h <;> simp [h]

theorem validAlertStatus_of_mem {k : Consts} {v : String}
    (h : v ∈ [k.CLN_ALERT_STATUS_READY, k.CLN_ALERT_STATUS_PROCESSING,
      k.CLN_ALERT_STATUS_SCHEDULING]) :
    validAlertStatus k v = true := by
  simp only [List.mem_cons, List.mem_singleton, List.not_mem_nil, or_false] at h
  unfold validAlertStatus
  rcases h with h | h | h <;> simp [h]

theorem countHeartbeat_append (s t : Ledger) (b : Int) :
    countHeartbeat (s ++ t) b = countHeartbeat s b + countHeartbeat t b := by
  simp [countHeartbeat]

theorem countHeartbeat_all {t : Ledger} {b : Int} (h : ∀ r ∈ t, r.Heartbeat = b) :
    countHeartbeat t b = t.length := by
  unfold countHeartbeat
  rw [List.filter_eq_self.mpr]
  intro r hr
  simp [h r hr]

/-- The missing-run transaction on a store that does not fail. -/
theorem InsertNodeProcessingMissingAlert_run {k : Consts} {env : Env} {s : Ledger}
    {cmd : SaveNodeProcessingMissingAlertCommand} {node : ActiveNode} {b : Int}
    (hnode : cmd.Node = some node) (hb : env.bucket = some b)
    (hbegin : env.beginErr = none) (hinsert : env.insertErr = none)
    (hcommit : env.commitErr = none) :
    InsertNodeProcessingMissingAlert k env s cmd =
      ⟨.returned none,
        { cmd with Result := some ⟨node.NodeId, b, 0, k.CLN_ALERT_RUN_TYPE_MISSING, "FIXME"⟩ },
        s ++ [⟨node.NodeId, b, 0, k.CLN_ALERT_RUN_TYPE_MISSING, "FIXME"⟩],
        [.Begin, .Query, .Insert, .Commit]⟩ := by
  obtain ⟨row, rest, hc, hp⟩ := Env.bucket_eq_some hb
  unfold InsertNodeProcessingMissingAlert
  simp [hnode, inTransaction, hbegin, hc, hp, hinsert, hcommit]

/-- A missing-run call that returned nil ran on a store that did not fail and
had a node. -/
theorem InsertNodeProcessingMissingAlert_nil {k : Consts} {env : Env} {s : Ledger}
    {cmd : SaveNodeProcessingMissingAlertCommand}
    (h : (InsertNodeProcessingMissingAlert k env s cmd).ret = .returned none) :
    ∃ node b, cmd.Node = some node ∧ env.bucket = some b ∧ env.beginErr = none ∧
      env.insertErr = none ∧ env.commitErr = none := by
  cases hbegin : env.beginErr with
  | some e => simp [InsertNodeProcessingMissingAlert, inTransaction, hbegin] at h
  | none =>
    cases hc : env.clock with
    | error e => simp [InsertNodeProcessingMissingAlert, inTransaction, hbegin, hc] at h
    | ok rows =>
      cases rows with
      | nil => simp [InsertNodeProcessingMissingAlert, inTransaction, hbegin, hc] at h
      | cons row rest =>
        rcases hp : strconv.ParseInt (mapIndex row "ts") with ⟨ts, perr⟩
        cases perr with
        | some e => simp [InsertNodeProcessingMissingAlert, inTransaction, hbegin, hc, hp] at h
        | none =>
          have hb : env.bucket = some ts := by simp [Env.bucket, hc, hp]
          cases hnode : cmd.Node with
          | none =>
            simp [InsertNodeProcessingMissingAlert, inTransaction, hbegin, hc, hp, hnode] at h
          | some node =>
            cases hinsert : env.insertErr with
            | some e =>
              simp [InsertNodeProcessingMissingAlert, inTransaction, hbegin, hc, hp, hnode,
                hinsert] at h
            | none =>
              cases hcommit : env.commitErr with
              | some e =>
                simp [InsertNodeProcessingMissingAlert, inTransaction, hbegin, hc, hp, hnode,
                  hinsert, hcommit] at h
              | none => exact ⟨node, ts, rfl, hb, rfl, rfl, rfl⟩

/-- Sequential heartbeats into one bucket: the rows appended carry consecutive
partition numbers starting at the number of rows the bucket already had. -/
theorem runHeartbeats_consecutive (k : Consts) (b : Int) :
    ∀ (calls : List (Env × SaveActiveNodeCommand)) (s : Ledger),
      (∀ c ∈ calls, c.1.bucket = some b) →
      (∀ r ∈ runHeartbeats k s calls, r.ret = .returned none) →
      ∃ rows : List ActiveNode,
        ledgerAfterHeartbeats k s calls = s ++ rows ∧
        rows.length = calls.length ∧
        (∀ r ∈ rows, r.Heartbeat = b) ∧
        rows.map (fun r => r.PartitionNo) =
          (List.range' (countHeartbeat s b) calls.length).map (fun (i : Nat) => (i : Int)) ∧
        ∀ i : Nat, ledgerAfterHeartbeats k s (calls.take i) = s ++ rows.take i := by
  intro calls
  induction calls with
  | nil =>
    intro s _ _
    exact ⟨[], by simp [ledgerAfterHeartbeats], rfl, by simp, by simp,
      by simp [ledgerAfterHeartbeats]⟩
  | cons c rest ih =>
    intro s hclock hok
    have h0 : (InsertActiveNodeHeartbeat k c.1 s c.2).ret = .returned none :=
      hok _ (by simp [runHeartbeats])
    obtain ⟨node, b0, _, hb0, _, _, hled⟩ := InsertActiveNodeHeartbeat_nil h0
    have hbb : b0 = b := by
      have := hclock c (by simp)
      rw [hb0] at this
      exact Option.some.inj this
    subst hbb
    have hrest : ∀ r ∈ runHeartbeats k (InsertActiveNodeHeartbeat k c.1 s c.2).ledger rest,
        r.ret = .returned none := fun r hr => hok r (by simp [runHeartbeats, hr])
    obtain ⟨rows, hafter, hlen, hhb, hparts, hpre⟩ :=
      ih (InsertActiveNodeHeartbeat k c.1 s c.2).ledger
        (fun c2 hc2 => hclock c2 (by simp [hc2])) hrest
    rw [hled] at hafter hparts hpre
    unfold insertHeartbeatSQL at hafter hparts hpre
    refine ⟨⟨node.NodeId, b0, (countHeartbeat s b0 : Int), node.AlertRunType,
      node.AlertStatus⟩ :: rows, ?_, by simp [hlen], ?_, ?_, ?_⟩
    · simp only [ledgerAfterHeartbeats, List.foldl_cons] at hafter ⊢
      rw [hled]
      unfold insertHeartbeatSQL
      rw [hafter]
      simp
    · intro r hr
      rcases List.mem_cons.mp hr with h | h
      · rw [h]
      · exact hhb r h
    · rw [countHeartbeat_append] at hparts
      have h1 : countHeartbeat [(⟨node.NodeId, b0, (countHeartbeat s b0 : Int),
          node.AlertRunType, node.AlertStatus⟩ : ActiveNode)] b0 = 1 := by
        simp [countHeartbeat]
      rw [h1] at hparts
      simp only [List.map_cons, List.length_cons, List.range'_succ, hparts]
    · intro i
      cases i with
      | zero => simp [ledgerAfterHeartbeats]
      | succ i =>
        have hi := hpre i
        simp only [ledgerAfterHeartbeats, List.take_succ_cons, List.foldl_cons] at hi ⊢
        rw [hled]
        unfold insertHeartbeatSQL
        rw [hi]
        simp

/-- After `insertHeartbeatSQL` the key `(nodeId, b)` is present: the first row
with that key is an older row with the same key if there is one, and the new
row otherwise. -/
theorem find_after_insertHeartbeatSQL (s : Ledger) (nodeId : String) (b : Int)
    (rt st : String) :
    ∃ row, (insertHeartbeatSQL s nodeId b b rt st).find?
        (fun r => decide (r.Heartbeat = b) && decide (r.NodeId = nodeId)) = some row ∧
      row.NodeId = nodeId ∧ row.Heartbeat = b ∧
      ((∀ old ∈ s, ¬ (old.NodeId = nodeId ∧ old.Heartbeat = b)) →
        row = ⟨nodeId, b, (countHeartbeat s b : Int), rt, st⟩) := by
  unfold insertHeartbeatSQL
  cases hfs : s.find? (fun r => decide (r.Heartbeat = b) && decide (r.NodeId = nodeId)) with
  | some old =>
    have hold := List.find?_some hfs
    simp only [Bool.and_eq_true, decide_eq_true_eq] at hold
    refine ⟨old, by simp [List.find?_append, hfs], hold.2, hold.1, ?_⟩
    intro hno
    exact absurd ⟨hold.2, hold.1⟩ (hno old (List.mem_of_find?_eq_some hfs))
  | none =>
    exact ⟨⟨nodeId, b, (countHeartbeat s b : Int), rt, st⟩,
      by simp [List.find?_append, hfs], rfl, rfl, fun _ => rfl⟩

/-! ## C1: invalid enums are rejected before any store operation -/

/-- C1: for every ledger state, every store behaviour and every command whose
node has an alertRunType outside {Normal, Missing} or an alertStatus outside
{Ready, Processing, Scheduling}, `InsertActiveNodeHeartbeat` returns a non-nil
error, issues no store operation at all (no clock query, no transaction), and
leaves the ledger and the command as they were. -/
theorem C1_invalid_enum_rejected_without_store_access (k : Consts) (env : Env) (s : Ledger)
    (cmd : SaveActiveNodeCommand) (node : ActiveNode) (hnode : cmd.Node = some node)
    (hbad : node.AlertRunType ∉ [k.CLN_ALERT_RUN_TYPE_NORMAL, k.CLN_ALERT_RUN_TYPE_MISSING] ∨
      node.AlertStatus ∉ [k.CLN_ALERT_STATUS_READY, k.CLN_ALERT_STATUS_PROCESSING,
        k.CLN_ALERT_STATUS_SCHEDULING]) :
    (∃ e, (InsertActiveNodeHeartbeat k env s cmd).ret = .returned (some e)) ∧
      (InsertActiveNodeHeartbeat k env s cmd).ops = [] ∧
      (InsertActiveNodeHeartbeat k env s cmd).ledger = s ∧
      (InsertActiveNodeHeartbeat k env s cmd).cmd = cmd := by
  by_cases hrt : validAlertRunType k node.AlertRunType = true
  · have hst : validAlertStatus k node.AlertStatus = false := by
      rcases hbad with hbad | hbad
      · exfalso
        apply hbad
        unfold validAlertRunType at hrt
        simp only [List.mem_cons, List.mem_singleton, List.not_mem_nil, or_false]
        by_cases h1 : node.AlertRunType = k.CLN_ALERT_RUN_TYPE_MISSING
        · exact Or.inr h1
        · by_cases h2 : node.AlertRunType = k.CLN_ALERT_RUN_TYPE_NORMAL
          · exact Or.inl h2
          · simp [h1, h2] at hrt
      · simp only [List.mem_cons, List.mem_singleton, List.not_mem_nil, or_false,
          not_or] at hbad
        simp [validAlertStatus, hbad.1, hbad.2.1, hbad.2.2]
    simp [InsertActiveNodeHeartbeat, hnode, hrt, hst]
  · simp [InsertActiveNodeHeartbeat, hnode, hrt]

/-- Witness of C1: run type `"bogus"` on a one-row ledger. -/
theorem C1_witness :
    (∃ e, (InsertActiveNodeHeartbeat specConsts (Env.healthy "1000")
        [⟨"a", 1000, 0, "normal", "ready"⟩]
        ⟨some ⟨"b", 0, 0, "bogus", "ready"⟩, true, none⟩).ret = .returned (some e)) ∧
      (InsertActiveNodeHeartbeat specConsts (Env.healthy "1000")
        [⟨"a", 1000, 0, "normal", "ready"⟩]
        ⟨some ⟨"b", 0, 0, "bogus", "ready"⟩, true, none⟩).ops = [] ∧
      (InsertActiveNodeHeartbeat specConsts (Env.healthy "1000")
        [⟨"a", 1000, 0, "normal", "ready"⟩]
        ⟨some ⟨"b", 0, 0, "bogus", "ready"⟩, true, none⟩).ledger =
          [⟨"a", 1000, 0, "normal", "ready"⟩] ∧
      (InsertActiveNodeHeartbeat specConsts (Env.healthy "1000")
        [⟨"a", 1000, 0, "normal", "ready"⟩]
        ⟨some ⟨"b", 0, 0, "bogus", "ready"⟩, true, none⟩).cmd =
          ⟨some ⟨"b", 0, 0, "bogus", "ready"⟩, true, none⟩ :=
  C1_invalid_enum_rejected_without_store_access specConsts (Env.healthy "1000")
    [⟨"a", 1000, 0, "normal", "ready"⟩] ⟨some ⟨"b", 0, 0, "bogus", "ready"⟩, true, none⟩
    ⟨"b", 0, 0, "bogus", "ready"⟩ rfl (Or.inl (by decide))

/-! ## C8: point lookup -/

/-- C8: for every ledger state, store behaviour and query, if no row has both
the queried node_id and the queried heartbeat then `GetActiveNodeByIdHeartbeat`
returns a non-nil error and leaves `query.Result` as it was; and whenever it
returns nil, `query.Result` is a row of the ledger whose NodeId and Heartbeat
equal the queried ones. -/
theorem C8_lookup_not_found_is_error (env : Env) (s : Ledger)
    (query : GetActiveNodeByIdHeartbeatQuery) :
    ((∀ row ∈ s, ¬ (row.NodeId = query.NodeId ∧ row.Heartbeat = query.Heartbeat)) →
        (∃ e, (GetActiveNodeByIdHeartbeat env s query).ret = .returned (some e)) ∧
        (GetActiveNodeByIdHeartbeat env s query).cmd.Result = query.Result) ∧
      ((GetActiveNodeByIdHeartbeat env s query).ret = .returned none →
        ∃ row ∈ s, (GetActiveNodeByIdHeartbeat env s query).cmd.Result = some row ∧
          row.NodeId = query.NodeId ∧ row.Heartbeat = query.Heartbeat) := by
  constructor
  · intro hno
    have hf : s.find? (fun r => decide (r.Heartbeat = query.Heartbeat) &&
        decide (r.NodeId = query.NodeId)) = none := by
      rw [List.find?_eq_none]
      intro r hr
      have := hno r hr
      simp only [Bool.and_eq_true, decide_eq_true_eq]
      tauto
    unfold GetActiveNodeByIdHeartbeat xormGet
    cases hg : env.getErr with
    | some e => simp
    | none => simp [hf]
  · intro hnil
    obtain ⟨row, hf, hcmd⟩ := GetActiveNodeByIdHeartbeat_nil hnil
    refine ⟨row, List.mem_of_find?_eq_some hf, by rw [hcmd], ?_⟩
    have := List.find?_some hf
    simp only [Bool.and_eq_true, decide_eq_true_eq] at this
    exact ⟨this.2, this.1⟩

/-- Witness of C8: a miss on a one-row ledger, and a hit on the same ledger. -/
theorem C8_witness :
    ((∃ e, (GetActiveNodeByIdHeartbeat (Env.healthy "1000")
          [⟨"a", 1000, 0, "normal", "ready"⟩] ⟨"a", 940, none⟩).ret = .returned (some e)) ∧
        (GetActiveNodeByIdHeartbeat (Env.healthy "1000")
          [⟨"a", 1000, 0, "normal", "ready"⟩] ⟨"a", 940, none⟩).cmd.Result = none) ∧
      (∃ row ∈ [(⟨"a", 1000, 0, "normal", "ready"⟩ : ActiveNode)],
        (GetActiveNodeByIdHeartbeat (Env.healthy "1000")
          [⟨"a", 1000, 0, "normal", "ready"⟩] ⟨"a", 1000, none⟩).cmd.Result = some row ∧
          row.NodeId = "a" ∧ row.Heartbeat = 1000) :=
  ⟨(C8_lookup_not_found_is_error (Env.healthy "1000") [⟨"a", 1000, 0, "normal", "ready"⟩]
      ⟨"a", 940, none⟩).1 (by decide),
    (C8_lookup_not_found_is_error (Env.healthy "1000") [⟨"a", 1000, 0, "normal", "ready"⟩]
      ⟨"a", 1000, none⟩).2 (by decide)⟩

/-! ## C9: interval watermark -/

/-- C9, as the claim states it, fails: for the clock value
`-9223372036854775808`, which parses as an `int64`, `GetLastDBTimeInterval`
returns nil with `Result = 9223372036854775748`, not `ts - 60`. -/
theorem C9_counterexample_wraps_at_min_int64 :
    strconv.ParseInt "-9223372036854775808" = (-9223372036854775808, none) ∧
      GetLastDBTimeInterval (Env.healthy "-9223372036854775808") [] (some ⟨0⟩) =
        ⟨.returned none, some ⟨9223372036854775748⟩, [], [.Query]⟩ ∧
      (9223372036854775748 : Int) ≠ -9223372036854775808 - 60 := by
  decide

/-- C9 (amended): for every clock value `ts` the clock source returns (first
row of the clock query, `ts` column parsing as an `int64`),
`GetLastDBTimeInterval` on a non-nil command returns nil after one clock query,
leaves the ledger alone, and sets `Result` to `ts - 60` reduced to `int64`:
exactly `ts - 60` when `ts ≥ -2^63 + 60`, and `ts - 60 + 2^64` below that. -/
theorem C9_watermark_is_bucket_minus_60_in_int64 (env : Env) (s : Ledger)
    (q : GetLastDBTimeIntervalQuery) (ts : Int) (hts : env.bucket = some ts) :
    (GetLastDBTimeInterval env s (some q)).ret = .returned none ∧
      (GetLastDBTimeInterval env s (some q)).ledger = s ∧
      (GetLastDBTimeInterval env s (some q)).ops = [.Query] ∧
      (-(2 ^ 63) + 60 ≤ ts → (GetLastDBTimeInterval env s (some q)).cmd = some ⟨ts - 60⟩) ∧
      (ts < -(2 ^ 63) + 60 →
        (GetLastDBTimeInterval env s (some q)).cmd = some ⟨ts - 60 + 2 ^ 64⟩) := by
  obtain ⟨row, rest, hc, hp⟩ := Env.bucket_eq_some hts
  have hr := strconv.ParseInt_range hp
  have hrun : GetLastDBTimeInterval env s (some q) =
      ⟨.returned none, some ⟨wrapInt64 (ts - 60)⟩, s, [.Query]⟩ := by
    simp [GetLastDBTimeInterval, hc, hp]
  rw [hrun]
  refine ⟨rfl, rfl, rfl, ?_, ?_⟩
  · intro h
    have : wrapInt64 (ts - 60) = ts - 60 := by
      unfold wrapInt64
      omega
    rw [this]
  · intro h
    have : wrapInt64 (ts - 60) = ts - 60 + 2 ^ 64 := by
      unfold wrapInt64
      omega
    rw [this]

/-- Witness of C9 (amended): clock value `1000` gives 940; clock value
`-9223372036854775800`, within 60 of the least `int64`, wraps around. -/
theorem C9_witness :
    ((GetLastDBTimeInterval (Env.healthy "1000") [] (some ⟨0⟩)).ret = .returned none ∧
      (GetLastDBTimeInterval (Env.healthy "1000") [] (some ⟨0⟩)).ledger = [] ∧
      (GetLastDBTimeInterval (Env.healthy "1000") [] (some ⟨0⟩)).ops = [.Query] ∧
      (GetLastDBTimeInterval (Env.healthy "1000") [] (some ⟨0⟩)).cmd = some ⟨1000 - 60⟩) ∧
    (GetLastDBTimeInterval (Env.healthy "-9223372036854775800") [] (some ⟨0⟩)).cmd =
      some ⟨-9223372036854775800 - 60 + 2 ^ 64⟩ :=
  ⟨⟨(C9_watermark_is_bucket_minus_60_in_int64 (Env.healthy "1000") [] ⟨0⟩ 1000
        (by decide)).1,
      (C9_watermark_is_bucket_minus_60_in_int64 (Env.healthy "1000") [] ⟨0⟩ 1000
        (by decide)).2.1,
      (C9_watermark_is_bucket_minus_60_in_int64 (Env.healthy "1000") [] ⟨0⟩ 1000
        (by decide)).2.2.1,
      (C9_watermark_is_bucket_minus_60_in_int64 (Env.healthy "1000") [] ⟨0⟩ 1000
        (by decide)).2.2.2.1 (by decide)⟩,
    (C9_watermark_is_bucket_minus_60_in_int64 (Env.healthy "-9223372036854775800") [] ⟨0⟩
      (-9223372036854775800) (by decide)).2.2.2.2 (by decide)⟩

/-! ## C10: missing or empty node identifier -/

/-- C10, as the claim states it, fails: a command whose node has the empty
NodeId and valid enums is not rejected. On the empty ledger with clock bucket
1000 the call returns nil after a full transaction and writes a row with an
empty node_id. -/
theorem C10_counterexample_empty_node_id_is_written :
    InsertActiveNodeHeartbeat specConsts (Env.healthy "1000") []
        ⟨some ⟨"", 0, 0, "normal", "ready"⟩, false, none⟩ =
      ⟨.returned none, ⟨some ⟨"", 0, 0, "normal", "ready"⟩, false, none⟩,
        [⟨"", 1000, 0, "normal", "ready"⟩], [.Begin, .Query, .Exec, .Commit]⟩ := by
  decide

/-- C10 (amended): for every ledger state and store behaviour, a command whose
Node is absent makes `InsertActiveNodeHeartbeat` return an error without any
store operation and without writing a row. An empty NodeId is not checked: a
command with `Node.NodeId = ""` and valid enums is processed like any other,
and on a store that does not fail it returns nil and appends a row with the
empty node_id to the ledger. -/
theorem C10_absent_node_rejected_empty_id_accepted (k : Consts) (env : Env) (s : Ledger)
    (cmd : SaveActiveNodeCommand) :
    (cmd.Node = none →
        InsertActiveNodeHeartbeat k env s cmd =
          ⟨.returned (some (.New "No ActiveNode found to save")), cmd, s, []⟩) ∧
      (∀ (node : ActiveNode) (b : Int), cmd.Node = some node → node.NodeId = "" →
        node.AlertRunType ∈ [k.CLN_ALERT_RUN_TYPE_NORMAL, k.CLN_ALERT_RUN_TYPE_MISSING] →
        node.AlertStatus ∈ [k.CLN_ALERT_STATUS_READY, k.CLN_ALERT_STATUS_PROCESSING,
          k.CLN_ALERT_STATUS_SCHEDULING] →
        env.bucket = some b → env.beginErr = none → env.execErr = none →
        env.commitErr = none → env.getErr = none →
        (InsertActiveNodeHeartbeat k env s cmd).ret = .returned none ∧
          (InsertActiveNodeHeartbeat k env s cmd).ledger =
            s ++ [⟨"", b, (countHeartbeat s b : Int), node.AlertRunType,
              node.AlertStatus⟩]) := by
  constructor
  · intro hnone
    simp [InsertActiveNodeHeartbeat, hnone]
  · intro node b hnode hid hrt hst hb hbegin hexec hcommit hget
    have hrt1 := validAlertRunType_of_mem hrt
    have hst1 := validAlertStatus_of_mem hst
    have hled := @InsertActiveNodeHeartbeat_ledger k env s cmd node b hnode hrt1 hst1 hb hbegin hexec
      hcommit
    refine ⟨?_, by rw [hled, hid]; rfl⟩
    cases hfr : cmd.FetchResult with
    | false =>
      rw [InsertActiveNodeHeartbeat_run hnode hrt1 hst1 hb hbegin hexec hcommit hfr]
    | true =>
      obtain ⟨row, hf, _⟩ := find_after_insertHeartbeatSQL s node.NodeId b node.AlertRunType
        node.AlertStatus
      rw [InsertActiveNodeHeartbeat_fetch hnode hrt1 hst1 hb hbegin hexec hcommit hfr hget hf]

/-- Witness of C10 (amended): an absent node, and an empty NodeId with valid
enums on the empty ledger at clock bucket 1000. -/
theorem C10_witness :
    InsertActiveNodeHeartbeat specConsts (Env.healthy "1000") [] ⟨none, true, none⟩ =
        ⟨.returned (some (.New "No ActiveNode found to save")), ⟨none, true, none⟩, [], []⟩ ∧
      ((InsertActiveNodeHeartbeat specConsts (Env.healthy "1000") []
          ⟨some ⟨"", 0, 0, "normal", "ready"⟩, true, none⟩).ret = .returned none ∧
        (InsertActiveNodeHeartbeat specConsts (Env.healthy "1000") []
          ⟨some ⟨"", 0, 0, "normal", "ready"⟩, true, none⟩).ledger =
            [] ++ [⟨"", 1000, (countHeartbeat [] 1000 : Int), "normal", "ready"⟩]) :=
  ⟨(C10_absent_node_rejected_empty_id_accepted specConsts (Env.healthy "1000") []
      ⟨none, true, none⟩).1 rfl,
    (C10_absent_node_rejected_empty_id_accepted specConsts (Env.healthy "1000") []
      ⟨some ⟨"", 0, 0, "normal", "ready"⟩, true, none⟩).2 ⟨"", 0, 0, "normal", "ready"⟩ 1000
      rfl rfl (by decide) (by decide) (by decide) rfl rfl rfl rfl⟩

/-! ## C2: a recorded heartbeat can be fetched -/

/-- C2, as the claim states it, fails: node `n1` records (Normal, Ready) and
then, in the same bucket 1000, (Normal, Processing). Both calls return nil, but
the row fetched for `(n1, 1000)`, by the second call itself and by a later
lookup, is the first row: its status is Ready, not the Processing just
recorded. -/
theorem C2_counterexample_older_row_is_fetched :
    InsertActiveNodeHeartbeat specConsts (Env.healthy "1000") []
        ⟨some ⟨"n1", 0, 0, "normal", "ready"⟩, false, none⟩ =
      ⟨.returned none, ⟨some ⟨"n1", 0, 0, "normal", "ready"⟩, false, none⟩,
        [⟨"n1", 1000, 0, "normal", "ready"⟩], [.Begin, .Query, .Exec, .Commit]⟩ ∧
    InsertActiveNodeHeartbeat specConsts (Env.healthy "1000")
        [⟨"n1", 1000, 0, "normal", "ready"⟩]
        ⟨some ⟨"n1", 0, 0, "normal", "processing"⟩, true, none⟩ =
      ⟨.returned none,
        ⟨some ⟨"n1", 0, 0, "normal", "processing"⟩, true,
          some ⟨"n1", 1000, 0, "normal", "ready"⟩⟩,
        [⟨"n1", 1000, 0, "normal", "ready"⟩, ⟨"n1", 1000, 1, "normal", "processing"⟩],
        [.Begin, .Query, .Exec, .Commit, .Get]⟩ ∧
    GetActiveNodeByIdHeartbeat (Env.healthy "1000")
        [⟨"n1", 1000, 0, "normal", "ready"⟩, ⟨"n1", 1000, 1, "normal", "processing"⟩]
        ⟨"n1", 1000, none⟩ =
      ⟨.returned none, ⟨"n1", 1000, some ⟨"n1", 1000, 0, "normal", "ready"⟩⟩,
        [⟨"n1", 1000, 0, "normal", "ready"⟩, ⟨"n1", 1000, 1, "normal", "processing"⟩],
        [.Get]⟩ ∧
    "ready" ≠ "processing" := by
  decide

/-- C2 (amended): for every ledger state, every node, every valid
(runType, status) pair and every clock bucket `b`, on a store that does not
fail, `InsertActiveNodeHeartbeat` returns nil and appends the row
`(nodeId, b, count of rows in b, runType, status)`; a subsequent
`GetActiveNodeByIdHeartbeat(nodeId, b)` returns nil with a row of the ledger
whose NodeId and Heartbeat are the ones just recorded (the same row the call
itself fetched when `FetchResult` is set). When the ledger held no row for
`(nodeId, b)` before the call, that row is the one just recorded, so its
alertRunType and alertStatus are the recorded ones too. Nothing is stated about
which row is returned when the ledger already held a row for `(nodeId, b)`. -/
theorem C2_recorded_heartbeat_is_fetchable (k : Consts) (env env2 : Env) (s : Ledger)
    (cmd : SaveActiveNodeCommand) (node : ActiveNode) (b : Int)
    (hnode : cmd.Node = some node)
    (hrt : node.AlertRunType ∈ [k.CLN_ALERT_RUN_TYPE_NORMAL, k.CLN_ALERT_RUN_TYPE_MISSING])
    (hst : node.AlertStatus ∈ [k.CLN_ALERT_STATUS_READY, k.CLN_ALERT_STATUS_PROCESSING,
      k.CLN_ALERT_STATUS_SCHEDULING])
    (hb : env.bucket = some b) (hbegin : env.beginErr = none) (hexec : env.execErr = none)
    (hcommit : env.commitErr = none) (hget : env.getErr = none)
    (hget2 : env2.getErr = none) :
    (InsertActiveNodeHeartbeat k env s cmd).ret = .returned none ∧
      (InsertActiveNodeHeartbeat k env s cmd).ledger =
        s ++ [⟨node.NodeId, b, (countHeartbeat s b : Int), node.AlertRunType,
          node.AlertStatus⟩] ∧
      ∃ row,
        GetActiveNodeByIdHeartbeat env2 (InsertActiveNodeHeartbeat k env s cmd).ledger
            ⟨node.NodeId, b, none⟩ =
          ⟨.returned none, ⟨node.NodeId, b, some row⟩,
            (InsertActiveNodeHeartbeat k env s cmd).ledger, [.Get]⟩ ∧
        row ∈ (InsertActiveNodeHeartbeat k env s cmd).ledger ∧
        (cmd.FetchResult = true →
          (InsertActiveNodeHeartbeat k env s cmd).cmd.Result = some row) ∧
        row.NodeId = node.NodeId ∧ row.Heartbeat = b ∧
        ((∀ old ∈ s, ¬ (old.NodeId = node.NodeId ∧ old.Heartbeat = b)) →
          row = ⟨node.NodeId, b, (countHeartbeat s b : Int), node.AlertRunType,
            node.AlertStatus⟩) := by
  have hrt1 := validAlertRunType_of_mem hrt
  have hst1 := validAlertStatus_of_mem hst
  have hled := @InsertActiveNodeHeartbeat_ledger k env s cmd node b hnode hrt1 hst1 hb hbegin hexec
    hcommit
  obtain ⟨row, hf, hid, hhb, hnew⟩ := find_after_insertHeartbeatSQL s node.NodeId b
    node.AlertRunType node.AlertStatus
  have hlook := @GetActiveNodeByIdHeartbeat_found env2 _ ⟨node.NodeId, b, none⟩ _ hget2 hf
  rw [hled]
  refine ⟨?_, rfl, row, hlook, List.mem_of_find?_eq_some hf, ?_, hid, hhb, hnew⟩
  · cases hfr : cmd.FetchResult with
    | false =>
      rw [InsertActiveNodeHeartbeat_run hnode hrt1 hst1 hb hbegin hexec hcommit hfr]
    | true =>
      rw [InsertActiveNodeHeartbeat_fetch hnode hrt1 hst1 hb hbegin hexec hcommit hfr hget hf]
  · intro hfr
    rw [InsertActiveNodeHeartbeat_fetch hnode hrt1 hst1 hb hbegin hexec hcommit hfr hget hf]

/-- Witness of C2 (amended): node `n1` reports (Normal, Processing) into bucket
1000, which already holds a row of node `n0`; the row fetched afterwards is the
one just recorded. -/
theorem C2_witness :
    (InsertActiveNodeHeartbeat specConsts (Env.healthy "1000")
        [⟨"n0", 1000, 0, "normal", "ready"⟩]
        ⟨some ⟨"n1", 0, 0, "normal", "processing"⟩, true, none⟩).ret = .returned none ∧
      (InsertActiveNodeHeartbeat specConsts (Env.healthy "1000")
        [⟨"n0", 1000, 0, "normal", "ready"⟩]
        ⟨some ⟨"n1", 0, 0, "normal", "processing"⟩, true, none⟩).ledger =
        [⟨"n0", 1000, 0, "normal", "ready"⟩] ++
          [⟨"n1", 1000, (countHeartbeat [⟨"n0", 1000, 0, "normal", "ready"⟩] 1000 : Int),
            "normal", "processing"⟩] ∧
      ∃ row,
        GetActiveNodeByIdHeartbeat (Env.healthy "1060")
            (InsertActiveNodeHeartbeat specConsts (Env.healthy "1000")
              [⟨"n0", 1000, 0, "normal", "ready"⟩]
              ⟨some ⟨"n1", 0, 0, "normal", "processing"⟩, true, none⟩).ledger
            ⟨"n1", 1000, none⟩ =
          ⟨.returned none, ⟨"n1", 1000, some row⟩,
            (InsertActiveNodeHeartbeat specConsts (Env.healthy "1000")
              [⟨"n0", 1000, 0, "normal", "ready"⟩]
              ⟨some ⟨"n1", 0, 0, "normal", "processing"⟩, true, none⟩).ledger, [.Get]⟩ ∧
        row ∈ (InsertActiveNodeHeartbeat specConsts (Env.healthy "1000")
          [⟨"n0", 1000, 0, "normal", "ready"⟩]
          ⟨some ⟨"n1", 0, 0, "normal", "processing"⟩, true, none⟩).ledger ∧
        (InsertActiveNodeHeartbeat specConsts (Env.healthy "1000")
          [⟨"n0", 1000, 0, "normal", "ready"⟩]
          ⟨some ⟨"n1", 0, 0, "normal", "processing"⟩, true, none⟩).cmd.Result = some row ∧
        row.NodeId = "n1" ∧ row.Heartbeat = 1000 ∧
        row = ⟨"n1", 1000, (countHeartbeat [⟨"n0", 1000, 0, "normal", "ready"⟩] 1000 : Int),
          "normal", "processing"⟩ := by
  obtain ⟨h1, h2, row, h3, hmem, h4, h5, h6, h7⟩ :=
    C2_recorded_heartbeat_is_fetchable specConsts (Env.healthy "1000") (Env.healthy "1060")
      [⟨"n0", 1000, 0, "normal", "ready"⟩]
      ⟨some ⟨"n1", 0, 0, "normal", "processing"⟩, true, none⟩
      ⟨"n1", 0, 0, "normal", "processing"⟩ 1000 rfl (by decide) (by decide) (by decide)
      rfl rfl rfl rfl rfl
  exact ⟨h1, h2, row, h3, hmem, h4 rfl, h5, h6, h7 (by decide)⟩

/-! ## C3: sequential heartbeats get dense partition numbers -/

/-- C3: for every bucket `b` that starts with no rows and every sequence of
`InsertActiveNodeHeartbeat` calls executed one after another, each with clock
bucket `b` and each returning nil, the ledger gains exactly one row per call,
all in bucket `b`; the row of the i-th call (counting from 0) has
`PartitionNo = i`, which is the number of rows the ledger held in bucket `b`
when that call ran; so the partition numbers of the rows of bucket `b` are
exactly `0, 1, ..., k-1`, without duplicate and without gap. -/
theorem C3_sequential_heartbeats_dense_partitions (k : Consts) (b : Int) (s0 : Ledger)
    (calls : List (Env × SaveActiveNodeCommand))
    (hfresh : ∀ r ∈ s0, r.Heartbeat ≠ b)
    (hclock : ∀ c ∈ calls, c.1.bucket = some b)
    (hok : ∀ r ∈ runHeartbeats k s0 calls, r.ret = .returned none) :
    ∃ rows : List ActiveNode,
      ledgerAfterHeartbeats k s0 calls = s0 ++ rows ∧
      rows.length = calls.length ∧
      (∀ r ∈ rows, r.Heartbeat = b) ∧
      rows.map (fun r => r.PartitionNo) =
        (List.range calls.length).map (fun (i : Nat) => (i : Int)) ∧
      (∀ i : Nat, i < calls.length →
        ledgerAfterHeartbeats k s0 (calls.take i) = s0 ++ rows.take i ∧
        (rows.map (fun r => r.PartitionNo))[i]? = some (i : Int) ∧
        countHeartbeat (ledgerAfterHeartbeats k s0 (calls.take i)) b = i) ∧
      ((ledgerAfterHeartbeats k s0 calls).filter
          (fun r => decide (r.Heartbeat = b))).map (fun r => r.PartitionNo) =
        (List.range calls.length).map (fun (i : Nat) => (i : Int)) := by
  obtain ⟨rows, hafter, hlen, hhb, hparts, hpre⟩ :=
    runHeartbeats_consecutive k b calls s0 hclock hok
  have hzero : countHeartbeat s0 b = 0 := by
    unfold countHeartbeat
    rw [List.length_eq_zero, List.filter_eq_nil_iff]
    intro r hr
    simpa using hfresh r hr
  rw [hzero, ← List.range_eq_range'] at hparts
  refine ⟨rows, hafter, hlen, hhb, hparts, ?_, ?_⟩
  · intro i hi
    refine ⟨hpre i, ?_, ?_⟩
    · rw [hparts]
      simp [hi]
    · rw [hpre i, countHeartbeat_append, hzero, Nat.zero_add]
      rw [countHeartbeat_all (fun r hr => hhb r (List.mem_of_mem_take hr))]
      simp
      omega
  · rw [hafter, List.filter_append]
    have h1 : s0.filter (fun r => decide (r.Heartbeat = b)) = [] := by
      rw [List.filter_eq_nil_iff]
      intro r hr
      simpa using hfresh r hr
    have h2 : rows.filter (fun r => decide (r.Heartbeat = b)) = rows := by
      rw [List.filter_eq_self]
      intro r hr
      simpa using hhb r hr
    rw [h1, h2, List.nil_append, hparts]

/-- Witness of C3: nodes `a`, `b`, `c` report one after another into bucket
1000, on a ledger that only holds a row of the previous bucket. -/
theorem C3_witness :
    ∃ rows : List ActiveNode,
      ledgerAfterHeartbeats specConsts [⟨"a", 940, 0, "normal", "ready"⟩]
          [(Env.healthy "1000", ⟨some ⟨"a", 0, 0, "normal", "ready"⟩, false, none⟩),
            (Env.healthy "1000", ⟨some ⟨"b", 0, 0, "normal", "ready"⟩, true, none⟩),
            (Env.healthy "+1000", ⟨some ⟨"c", 0, 0, "normal", "scheduling"⟩, false, none⟩)] =
        [⟨"a", 940, 0, "normal", "ready"⟩] ++ rows ∧
      rows.length = 3 ∧
      (∀ r ∈ rows, r.Heartbeat = 1000) ∧
      rows.map (fun r => r.PartitionNo) =
        (List.range 3).map (fun (i : Nat) => (i : Int)) ∧
      (∀ i : Nat, i < 3 →
        ledgerAfterHeartbeats specConsts [⟨"a", 940, 0, "normal", "ready"⟩]
          (List.take i
          [(Env.healthy "1000", ⟨some ⟨"a", 0, 0, "normal", "ready"⟩, false, none⟩),
            (Env.healthy "1000", ⟨some ⟨"b", 0, 0, "normal", "ready"⟩, true, none⟩),
            (Env.healthy "+1000", ⟨some ⟨"c", 0, 0, "normal", "scheduling"⟩, false, none⟩)]) =
          [⟨"a", 940, 0, "normal", "ready"⟩] ++ rows.take i ∧
        (rows.map (fun r => r.PartitionNo))[i]? = some (i : Int) ∧
        countHeartbeat (ledgerAfterHeartbeats specConsts [⟨"a", 940, 0, "normal", "ready"⟩]
          (List.take i
          [(Env.healthy "1000", ⟨some ⟨"a", 0, 0, "normal", "ready"⟩, false, none⟩),
            (Env.healthy "1000", ⟨some ⟨"b", 0, 0, "normal", "ready"⟩, true, none⟩),
            (Env.healthy "+1000", ⟨some ⟨"c", 0, 0, "normal", "scheduling"⟩, false, none⟩)])) 1000 = i) ∧
      ((ledgerAfterHeartbeats specConsts [⟨"a", 940, 0, "normal", "ready"⟩]
          [(Env.healthy "1000", ⟨some ⟨"a", 0, 0, "normal", "ready"⟩, false, none⟩),
            (Env.healthy "1000", ⟨some ⟨"b", 0, 0, "normal", "ready"⟩, true, none⟩),
            (Env.healthy "+1000",
              ⟨some ⟨"c", 0, 0, "normal", "scheduling"⟩, false, none⟩)]).filter
          (fun r => decide (r.Heartbeat = 1000))).map (fun r => r.PartitionNo) =
        (List.range 3).map (fun (i : Nat) => (i : Int)) :=
  C3_sequential_heartbeats_dense_partitions specConsts 1000
    [⟨"a", 940, 0, "normal", "ready"⟩]
    [(Env.healthy "1000", ⟨some ⟨"a", 0, 0, "normal", "ready"⟩, false, none⟩),
      (Env.healthy "1000", ⟨some ⟨"b", 0, 0, "normal", "ready"⟩, true, none⟩),
      (Env.healthy "+1000", ⟨some ⟨"c", 0, 0, "normal", "scheduling"⟩, false, none⟩)]
    (by decide) (by decide) (by decide)

/-! ## C4: the missing-run recorder -/

/-- C4: for every ledger state (whatever rows the current bucket already
holds), every node and every clock bucket `b`: on a store that does not fail
`InsertNodeProcessingMissingAlert` returns nil; and whenever it returns nil it
has appended to the ledger, and returned in `cmd.Result`, one row with
`PartitionNo = 0`, `AlertRunType = Missing`, `Heartbeat = b` and the NodeId of
the command's node. -/
theorem C4_missing_run_row_has_partition_zero (k : Consts) (env : Env) (s : Ledger)
    (cmd : SaveNodeProcessingMissingAlertCommand) (node : ActiveNode) (b : Int)
    (hnode : cmd.Node = some node) (hb : env.bucket = some b) :
    (env.beginErr = none → env.insertErr = none → env.commitErr = none →
        (InsertNodeProcessingMissingAlert k env s cmd).ret = .returned none) ∧
      ((InsertNodeProcessingMissingAlert k env s cmd).ret = .returned none →
        ∃ row : ActiveNode,
          (InsertNodeProcessingMissingAlert k env s cmd).ledger = s ++ [row] ∧
          (InsertNodeProcessingMissingAlert k env s cmd).cmd.Result = some row ∧
          row.PartitionNo = 0 ∧ row.AlertRunType = k.CLN_ALERT_RUN_TYPE_MISSING ∧
          row.Heartbeat = b ∧ row.NodeId = node.NodeId) := by
  constructor
  · intro hbegin hinsert hcommit
    rw [InsertNodeProcessingMissingAlert_run hnode hb hbegin hinsert hcommit]
  · intro hnil
    obtain ⟨node2, b2, hnode2, hb2, hbegin, hinsert, hcommit⟩ :=
      InsertNodeProcessingMissingAlert_nil hnil
    rw [InsertNodeProcessingMissingAlert_run hnode hb hbegin hinsert hcommit]
    exact ⟨_, rfl, rfl, rfl, rfl, rfl, rfl⟩

/-- Witness of C4: node `late` records a missing run into bucket 1000, which
already holds two Normal rows. -/
theorem C4_witness :
    (InsertNodeProcessingMissingAlert specConsts (Env.healthy "1000")
        [⟨"a", 1000, 0, "normal", "ready"⟩, ⟨"b", 1000, 1, "normal", "ready"⟩]
        ⟨some ⟨"late", 0, 0, "", ""⟩, none⟩).ret = .returned none ∧
      ∃ row : ActiveNode,
        (InsertNodeProcessingMissingAlert specConsts (Env.healthy "1000")
          [⟨"a", 1000, 0, "normal", "ready"⟩, ⟨"b", 1000, 1, "normal", "ready"⟩]
          ⟨some ⟨"late", 0, 0, "", ""⟩, none⟩).ledger =
          [⟨"a", 1000, 0, "normal", "ready"⟩, ⟨"b", 1000, 1, "normal", "ready"⟩] ++ [row] ∧
        (InsertNodeProcessingMissingAlert specConsts (Env.healthy "1000")
          [⟨"a", 1000, 0, "normal", "ready"⟩, ⟨"b", 1000, 1, "normal", "ready"⟩]
          ⟨some ⟨"late", 0, 0, "", ""⟩, none⟩).cmd.Result = some row ∧
        row.PartitionNo = 0 ∧ row.AlertRunType = "missing" ∧
        row.Heartbeat = 1000 ∧ row.NodeId = "late" :=
  ⟨(C4_missing_run_row_has_partition_zero specConsts (Env.healthy "1000")
      [⟨"a", 1000, 0, "normal", "ready"⟩, ⟨"b", 1000, 1, "normal", "ready"⟩]
      ⟨some ⟨"late", 0, 0, "", ""⟩, none⟩ ⟨"late", 0, 0, "", ""⟩ 1000 rfl (by decide)).1
      rfl rfl rfl,
    (C4_missing_run_row_has_partition_zero specConsts (Env.healthy "1000")
      [⟨"a", 1000, 0, "normal", "ready"⟩, ⟨"b", 1000, 1, "normal", "ready"⟩]
      ⟨some ⟨"late", 0, 0, "", ""⟩, none⟩ ⟨"late", 0, 0, "", ""⟩ 1000 rfl (by decide)).2
      (by decide)⟩

/-! ## C6: missing-run markers and the partition count -/

/-- C6, as the claim states it, fails: on the empty ledger a heartbeat of node
`live` into bucket 1000 is assigned partition 0; when node `late` has first
recorded a missing run into bucket 1000, the same heartbeat is assigned
partition 1. -/
theorem C6_counterexample_marker_shifts_partition :
    InsertActiveNodeHeartbeat specConsts (Env.healthy "1000") []
        ⟨some ⟨"live", 0, 0, "normal", "ready"⟩, false, none⟩ =
      ⟨.returned none, ⟨some ⟨"live", 0, 0, "normal", "ready"⟩, false, none⟩,
        [⟨"live", 1000, 0, "normal", "ready"⟩], [.Begin, .Query, .Exec, .Commit]⟩ ∧
    InsertNodeProcessingMissingAlert specConsts (Env.healthy "1000") []
        ⟨some ⟨"late", 0, 0, "", ""⟩, none⟩ =
      ⟨.returned none,
        ⟨some ⟨"late", 0, 0, "", ""⟩, some ⟨"late", 1000, 0, "missing", "FIXME"⟩⟩,
        [⟨"late", 1000, 0, "missing", "FIXME"⟩], [.Begin, .Query, .Insert, .Commit]⟩ ∧
    InsertActiveNodeHeartbeat specConsts (Env.healthy "1000")
        [⟨"late", 1000, 0, "missing", "FIXME"⟩]
        ⟨some ⟨"live", 0, 0, "normal", "ready"⟩, false, none⟩ =
      ⟨.returned none, ⟨some ⟨"live", 0, 0, "normal", "ready"⟩, false, none⟩,
        [⟨"late", 1000, 0, "missing", "FIXME"⟩, ⟨"live", 1000, 1, "normal", "ready"⟩],
        [.Begin, .Query, .Exec, .Commit]⟩ := by
  decide

/-- C6 (amended): the partition number `InsertActiveNodeHeartbeat` assigns in
bucket `b` is the number of rows the ledger holds in bucket `b`, Missing rows
included. So after a successful `InsertNodeProcessingMissingAlert` into bucket
`bm` the number assigned in bucket `b` is one higher than without it when
`bm = b`, and the same when `bm ≠ b`. -/
theorem C6_marker_in_same_bucket_raises_partition (k : Consts) (env envM : Env)
    (s : Ledger) (cmd : SaveActiveNodeCommand) (mcmd : SaveNodeProcessingMissingAlertCommand)
    (node : ActiveNode) (b bm : Int)
    (hnode : cmd.Node = some node)
    (hrt : node.AlertRunType ∈ [k.CLN_ALERT_RUN_TYPE_NORMAL, k.CLN_ALERT_RUN_TYPE_MISSING])
    (hst : node.AlertStatus ∈ [k.CLN_ALERT_STATUS_READY, k.CLN_ALERT_STATUS_PROCESSING,
      k.CLN_ALERT_STATUS_SCHEDULING])
    (hb : env.bucket = some b) (hbegin : env.beginErr = none) (hexec : env.execErr = none)
    (hcommit : env.commitErr = none)
    (hbm : envM.bucket = some bm)
    (hmok : (InsertNodeProcessingMissingAlert k envM s mcmd).ret = .returned none) :
    (InsertActiveNodeHeartbeat k env s cmd).ledger =
        s ++ [⟨node.NodeId, b, (countHeartbeat s b : Int), node.AlertRunType,
          node.AlertStatus⟩] ∧
      (InsertActiveNodeHeartbeat k env
          (InsertNodeProcessingMissingAlert k envM s mcmd).ledger cmd).ledger =
        (InsertNodeProcessingMissingAlert k envM s mcmd).ledger ++
          [⟨node.NodeId, b, (countHeartbeat s b : Int) + (if bm = b then 1 else 0),
            node.AlertRunType, node.AlertStatus⟩] := by
  have hrt1 := validAlertRunType_of_mem hrt
  have hst1 := validAlertStatus_of_mem hst
  obtain ⟨mnode, bm2, hmnode, hbm2, hmbegin, hminsert, hmcommit⟩ :=
    InsertNodeProcessingMissingAlert_nil hmok
  rw [InsertActiveNodeHeartbeat_ledger hnode hrt1 hst1 hb hbegin hexec hcommit,
    InsertActiveNodeHeartbeat_ledger hnode hrt1 hst1 hb hbegin hexec hcommit,
    InsertNodeProcessingMissingAlert_run hmnode hbm hmbegin hminsert hmcommit]
  refine ⟨rfl, ?_⟩
  simp only [insertHeartbeatSQL, countHeartbeat_append]
  by_cases hsame : bm = b
  · simp [countHeartbeat, hsame]
  · simp [countHeartbeat, hsame]

/-- Witness of C6 (amended): bucket 1000 holds one Normal row; a marker into
the same bucket moves the next heartbeat from partition 1 to partition 2. -/
theorem C6_witness :
    (InsertActiveNodeHeartbeat specConsts (Env.healthy "1000")
        [⟨"a", 1000, 0, "normal", "ready"⟩]
        ⟨some ⟨"live", 0, 0, "normal", "ready"⟩, false, none⟩).ledger =
        [⟨"a", 1000, 0, "normal", "ready"⟩] ++
          [⟨"live", 1000, (countHeartbeat [⟨"a", 1000, 0, "normal", "ready"⟩] 1000 : Int),
            "normal", "ready"⟩] ∧
      (InsertActiveNodeHeartbeat specConsts (Env.healthy "1000")
          (InsertNodeProcessingMissingAlert specConsts (Env.healthy "1000")
            [⟨"a", 1000, 0, "normal", "ready"⟩] ⟨some ⟨"late", 0, 0, "", ""⟩, none⟩).ledger
          ⟨some ⟨"live", 0, 0, "normal", "ready"⟩, false, none⟩).ledger =
        (InsertNodeProcessingMissingAlert specConsts (Env.healthy "1000")
            [⟨"a", 1000, 0, "normal", "ready"⟩] ⟨some ⟨"late", 0, 0, "", ""⟩, none⟩).ledger ++
          [⟨"live", 1000,
            (countHeartbeat [⟨"a", 1000, 0, "normal", "ready"⟩] 1000 : Int) +
              (if (1000 : Int) = 1000 then 1 else 0),
            "normal", "ready"⟩] :=
  C6_marker_in_same_bucket_raises_partition specConsts (Env.healthy "1000")
    (Env.healthy "1000") [⟨"a", 1000, 0, "normal", "ready"⟩]
    ⟨some ⟨"live", 0, 0, "normal", "ready"⟩, false, none⟩ ⟨some ⟨"late", 0, 0, "", ""⟩, none⟩
    ⟨"live", 0, 0, "normal", "ready"⟩ 1000 1000 rfl (by decide) (by decide) (by decide)
    rfl rfl rfl (by decide) (by decide)

/-! ## C7: closed enumerations in the ledger -/

/-- C7 fails on the code: starting from the empty ledger, one successful
`InsertNodeProcessingMissingAlert` (node `n1`, clock bucket 1000) leaves a row
whose AlertStatus is the placeholder `"FIXME"`, which `validAlertStatus`
rejects and which is none of Ready, Processing, Scheduling. -/
theorem C7_missing_run_row_has_status_outside_enum :
    InsertNodeProcessingMissingAlert specConsts (Env.healthy "1000") []
        ⟨some ⟨"n1", 0, 0, "", ""⟩, none⟩ =
      ⟨.returned none,
        ⟨some ⟨"n1", 0, 0, "", ""⟩, some ⟨"n1", 1000, 0, "missing", "FIXME"⟩⟩,
        [⟨"n1", 1000, 0, "missing", "FIXME"⟩], [.Begin, .Query, .Insert, .Commit]⟩ ∧
    validAlertStatus specConsts "FIXME" = false ∧
    "FIXME" ∉ [specConsts.CLN_ALERT_STATUS_READY, specConsts.CLN_ALERT_STATUS_PROCESSING,
      specConsts.CLN_ALERT_STATUS_SCHEDULING] := by
  decide

end sqlstore
